import Mathlib

/-!
Shallow embedding of the daily-helper authentication / user-management flow.

Server side: the user record shape (backend custom User model, mirrored by the
TypeScript `User` interface in frontend/src/types/user.ts).

Client side: the GraphQL documents in frontend/src/graphql/auth.graphql.ts are
embedded as their user selection sets (lists of requested field names); the
Pinia auth store (stores/auth.ts) is embedded as a state machine whose actions
are pure functions of the current state and the transport-layer outcome of the
underlying GraphQL call; the router guard (router/index.ts) and the two form
components (CreateUserForm.vue, UserManagementView.vue) are embedded as the
pure functions they compute.

Backend resolvers that are not present in the frontend tree are modelled where
needed, each marked in its doc comment.
-/

/-- Server-side user record: one field per attribute of the backend user model,
matching the field list of the TypeScript `User` interface
(frontend/src/types/user.ts lines 1-13). -/
structure ServerUser where
  id : String
  username : String
  email : String
  firstName : String
  lastName : String
  isActive : Bool
  isStaff : Bool
  isSuperuser : Bool
  dateJoined : String
  createdAt : String
  updatedAt : String
deriving Repr, DecidableEq

/-- Field names of the TypeScript `User` interface (frontend/src/types/user.ts),
the client's own declaration of the user-snapshot shape. -/
def userInterfaceFields : List String :=
  ["id", "username", "email", "firstName", "lastName", "isActive", "isStaff",
   "isSuperuser", "dateJoined", "createdAt", "updatedAt"]

namespace GraphQL

/-- User selection set of LOGIN_MUTATION (auth.graphql.ts lines 8-19), verbatim. -/
def loginUserSelection : List String :=
  ["id", "username", "email", "firstName", "lastName", "isActive", "isStaff",
   "dateJoined", "createdAt", "updatedAt"]

/-- User selection set of REGISTER_MUTATION (auth.graphql.ts lines 29-40), verbatim. -/
def registerUserSelection : List String :=
  ["id", "username", "email", "firstName", "lastName", "isActive", "isStaff",
   "dateJoined", "createdAt", "updatedAt"]

/-- User selection set of ME_QUERY (auth.graphql.ts lines 56-67), verbatim. -/
def meUserSelection : List String :=
  ["id", "username", "email", "firstName", "lastName", "isActive", "isStaff",
   "dateJoined", "createdAt", "updatedAt"]

/-- User selection set of ALL_USERS_QUERY (auth.graphql.ts lines 73-84), verbatim. -/
def allUsersSelection : List String :=
  ["id", "username", "email", "firstName", "lastName", "isActive", "isStaff",
   "dateJoined", "createdAt", "updatedAt"]

/-- User selection set of UPDATE_USER_MUTATION (auth.graphql.ts lines 93-104), verbatim. -/
def updateUserSelection : List String :=
  ["id", "username", "email", "firstName", "lastName", "isActive", "isStaff",
   "dateJoined", "createdAt", "updatedAt"]

end GraphQL

/-- Client-side user snapshot as delivered by a GraphQL response: each field is
present (`some`) exactly when the operation's selection set requested it, and
absent (`none`, i.e. `undefined` in the client) otherwise. -/
structure ClientUser where
  id : Option String
  username : Option String
  email : Option String
  firstName : Option String
  lastName : Option String
  isActive : Option Bool
  isStaff : Option Bool
  isSuperuser : Option Bool
  dateJoined : Option String
  createdAt : Option String
  updatedAt : Option String
deriving Repr, DecidableEq

/-- GraphQL response shaping: project a server user record through a selection
set; a field appears in the client object iff its name was selected. -/
def projectUser (sel : List String) (u : ServerUser) : ClientUser where
  id := if sel.contains "id" then some u.id else none
  username := if sel.contains "username" then some u.username else none
  email := if sel.contains "email" then some u.email else none
  firstName := if sel.contains "firstName" then some u.firstName else none
  lastName := if sel.contains "lastName" then some u.lastName else none
  isActive := if sel.contains "isActive" then some u.isActive else none
  isStaff := if sel.contains "isStaff" then some u.isStaff else none
  isSuperuser := if sel.contains "isSuperuser" then some u.isSuperuser else none
  dateJoined := if sel.contains "dateJoined" then some u.dateJoined else none
  createdAt := if sel.contains "createdAt" then some u.createdAt else none
  updatedAt := if sel.contains "updatedAt" then some u.updatedAt else none

/-- Mutation payload carrying an optional user, matching the TypeScript
`LoginPayload` / `RegisterPayload` / `UpdateUserPayload` interfaces. -/
structure UserPayload where
  success : Bool
  message : String
  user : Option ClientUser
deriving Repr, DecidableEq

/-- Payload of the logout mutation (TypeScript `LogoutPayload`): no user field. -/
structure LogoutPayload where
  success : Bool
  message : String
deriving Repr, DecidableEq

/-- JavaScript exception value as the store's catch blocks discriminate it:
an `Error` instance carrying a message, or any other thrown value. -/
inductive JsException where
  | errObj (message : String)
  | other
deriving Repr, DecidableEq

/-- Transport-layer outcome of one urql call, as observed by the store:
either the promise rejected with an exception, or it resolved to a result
with an optional `error` (carrying `error.message`) and optional `data`
(the operation's payload when present). -/
inductive Transport (α : Type) where
  | thrown (e : JsException)
  | result (error : Option String) (data : Option α)
deriving Repr, DecidableEq

/-- Failure outcomes named by the error-handling spec: a GraphQL error result
or a thrown exception (a resolved result with no error is not one). -/
def Transport.fails {α : Type} : Transport α → Bool
  | .thrown _ => true
  | .result (some _) _ => true
  | .result none _ => false

/-- JavaScript `a || b` on strings: the empty string is falsy. -/
def jsOr (m fallback : String) : String :=
  if m = "" then fallback else m

/-- Message produced by the catch blocks of the store actions:
`error instanceof Error ? error.message : 'An error occurred'`. -/
def catchMessage : JsException → String
  | .errObj m => m
  | .other => "An error occurred"

/-- Message of the TypeError raised when a store action reads `.success` off
`result.data?.X` and `data` is absent. -/
def typeErrorReadingSuccess : String :=
  "Cannot read properties of undefined (reading 'success')"

namespace AuthStore

/-- Reactive state of the Pinia auth store: the cached current-user snapshot
and the loading flag (stores/auth.ts lines 23-24). -/
structure AuthState where
  currentUser : Option ClientUser
  isLoading : Bool
deriving Repr, DecidableEq

/-- Computed `isAuthenticated`: `currentUser.value !== null`. -/
def isAuthenticated (s : AuthState) : Bool :=
  s.currentUser.isSome

/-- Computed `isAdmin`: `currentUser.value?.isSuperuser === true`. -/
def isAdmin (s : AuthState) : Bool :=
  match s.currentUser with
  | some u => u.isSuperuser == some true
  | none => false

/-- Computed `isStaff`: `currentUser.value?.isStaff === true`. -/
def isStaff (s : AuthState) : Bool :=
  match s.currentUser with
  | some u => u.isStaff == some true
  | none => false

/-- Body of the `try` block of the `login` action, on the state after
`isLoading.value = true`; `Except.error` is an exception escaping the block
(the rejected await, or the TypeError from reading `.success` of undefined). -/
def loginTry (s : AuthState) (t : Transport UserPayload) :
    Except JsException (AuthState × UserPayload) :=
  match t with
  | .thrown e => .error e
  | .result (some errMsg) _ =>
      .ok ({ s with isLoading := false },
           { success := false, message := jsOr errMsg "Login failed", user := none })
  | .result none none => .error (.errObj typeErrorReadingSuccess)
  | .result none (some p) =>
      let s1 := if p.success && p.user.isSome then { s with currentUser := p.user } else s
      .ok ({ s1 with isLoading := false }, p)

/-- The `login` action (stores/auth.ts lines 32-61): sets `isLoading`, runs the
try body, and converts any escaping exception into a failure payload. -/
def login (s : AuthState) (t : Transport UserPayload) : AuthState × UserPayload :=
  let s0 : AuthState := { s with isLoading := true }
  match loginTry s0 t with
  | .ok r => r
  | .error e =>
      ({ s0 with isLoading := false },
       { success := false, message := catchMessage e, user := none })

/-- Body of the `try` block of the `register` action: on success the payload is
returned to the caller and `currentUser` is not touched. -/
def registerTry (s : AuthState) (t : Transport UserPayload) :
    Except JsException (AuthState × UserPayload) :=
  match t with
  | .thrown e => .error e
  | .result (some errMsg) _ =>
      .ok ({ s with isLoading := false },
           { success := false, message := jsOr errMsg "Registration failed", user := none })
  | .result none none => .error (.errObj typeErrorReadingSuccess)
  | .result none (some p) => .ok ({ s with isLoading := false }, p)

/-- The `register` action (stores/auth.ts lines 64-88). -/
def register (s : AuthState) (t : Transport UserPayload) : AuthState × UserPayload :=
  let s0 : AuthState := { s with isLoading := true }
  match registerTry s0 t with
  | .ok r => r
  | .error e =>
      ({ s0 with isLoading := false },
       { success := false, message := catchMessage e, user := none })

/-- Body of the `try` block of the `logout` action: on a successful payload the
snapshot is cleared. -/
def logoutTry (s : AuthState) (t : Transport LogoutPayload) :
    Except JsException (AuthState × LogoutPayload) :=
  match t with
  | .thrown e => .error e
  | .result (some errMsg) _ =>
      .ok ({ s with isLoading := false },
           { success := false, message := jsOr errMsg "Logout failed" })
  | .result none none => .error (.errObj typeErrorReadingSuccess)
  | .result none (some p) =>
      let s1 := if p.success then { s with currentUser := none } else s
      .ok ({ s1 with isLoading := false }, p)

/-- The `logout` action (stores/auth.ts lines 91-120). -/
def logout (s : AuthState) (t : Transport LogoutPayload) : AuthState × LogoutPayload :=
  let s0 : AuthState := { s with isLoading := true }
  match logoutTry s0 t with
  | .ok r => r
  | .error e =>
      ({ s0 with isLoading := false },
       { success := false, message := catchMessage e })

/-- The `fetchCurrentUser` action (stores/auth.ts lines 123-135): stores the
returned user when the result has no error and a user, and clears the snapshot
on every other outcome (error result, absent/null `me`, or thrown exception);
it never touches `isLoading`. -/
def fetchCurrentUser (s : AuthState) (t : Transport ClientUser) : AuthState :=
  match t with
  | .result none (some u) => { s with currentUser := some u }
  | _ => { s with currentUser := none }

/-- The `fetchAllUsers` action (stores/auth.ts lines 138-150): returns the list
when the result has no error and data, and `[]` on every other outcome. -/
def fetchAllUsers (t : Transport (List ClientUser)) : List ClientUser :=
  match t with
  | .result none (some us) => us
  | _ => []

/-- Body of the `try` block of the `updateUser` action. -/
def updateUserTry (s : AuthState) (t : Transport UserPayload) :
    Except JsException (AuthState × UserPayload) :=
  match t with
  | .thrown e => .error e
  | .result (some errMsg) _ =>
      .ok ({ s with isLoading := false },
           { success := false, message := jsOr errMsg "Update failed", user := none })
  | .result none none => .error (.errObj typeErrorReadingSuccess)
  | .result none (some p) => .ok ({ s with isLoading := false }, p)

/-- The `updateUser` action (stores/auth.ts lines 153-177). -/
def updateUser (s : AuthState) (t : Transport UserPayload) : AuthState × UserPayload :=
  let s0 : AuthState := { s with isLoading := true }
  match updateUserTry s0 t with
  | .ok r => r
  | .error e =>
      ({ s0 with isLoading := false },
       { success := false, message := catchMessage e, user := none })

end AuthStore

namespace Router

/-- Route meta flags used by the guard (router/index.ts lines 41-43). -/
structure RouteMeta where
  requiresAuth : Bool
  requiresGuest : Bool
  requiresAdmin : Bool
deriving Repr, DecidableEq

/-- Outcome passed to `next(...)` by the guard: redirect to the login route,
redirect to the dashboard route, or let the navigation proceed. -/
inductive NavOutcome where
  | toLogin
  | toDashboard
  | proceed
deriving Repr, DecidableEq

/-- Condition under which the guard issues a `me()` request
(router/index.ts line 37): `!authStore.currentUser && !authStore.isLoading`. -/
def guardFetches (s : AuthStore.AuthState) : Bool :=
  s.currentUser.isNone && !s.isLoading

/-- Redirect decision of the guard (router/index.ts lines 45-56), evaluated on
the store state after the optional `me()` fetch. -/
def guardDecision (meta : RouteMeta) (s : AuthStore.AuthState) : NavOutcome :=
  if meta.requiresAuth && !AuthStore.isAuthenticated s then .toLogin
  else if meta.requiresGuest && AuthStore.isAuthenticated s then .toDashboard
  else if meta.requiresAdmin && !AuthStore.isAdmin s then .toDashboard
  else .proceed

/-- One run of `router.beforeEach` (router/index.ts lines 33-57): if the
snapshot is absent and no load is in flight, await `fetchCurrentUser` (whose
transport outcome is `t`) before deciding; returns the resulting store state,
whether a `me()` request was issued, and the navigation outcome. -/
def beforeEach (s : AuthStore.AuthState) (t : Transport ClientUser)
    (meta : RouteMeta) : AuthStore.AuthState × Bool × NavOutcome :=
  if guardFetches s then
    let s1 := AuthStore.fetchCurrentUser s t
    (s1, true, guardDecision meta s1)
  else
    (s, false, guardDecision meta s)

end Router

namespace CreateUserForm

/-- The `userType` prop of CreateUserForm.vue: 'admin' | 'staff' | 'normal'. -/
inductive UserType where
  | admin
  | staff
  | normal
deriving Repr, DecidableEq

/-- Validated form values of CreateUserForm.vue at submission time. -/
structure FormValues where
  username : String
  email : String
  password : String
  firstName : String
  lastName : String
  isActive : Bool
deriving Repr, DecidableEq

/-- TypeScript `RegisterInput` (frontend/src/types/user.ts lines 20-29):
optional fields are `Option`-typed; `none` is an omitted field. -/
structure RegisterInput where
  username : String
  email : String
  password : String
  firstName : Option String
  lastName : Option String
  isStaff : Option Bool
  isSuperuser : Option Bool
  isActive : Option Bool
deriving Repr, DecidableEq

/-- JavaScript `s || undefined` on a string field: the empty string becomes
`undefined`. -/
def stringOrUndefined (s : String) : Option String :=
  if s = "" then none else some s

/-- The `RegisterInput` built by `onSubmit` of CreateUserForm.vue
(lines 67-76): `isSuperuser: userType === 'admin'`,
`isStaff: userType === 'admin' || userType === 'staff'`. -/
def onSubmitInput (userType : UserType) (v : FormValues) : RegisterInput where
  username := v.username
  email := v.email
  password := v.password
  firstName := stringOrUndefined v.firstName
  lastName := stringOrUndefined v.lastName
  isStaff := some (userType == .admin || userType == .staff)
  isSuperuser := some (userType == .admin)
  isActive := some v.isActive

end CreateUserForm

namespace UserManagement

/-- The reactive `editForm` of UserManagementView.vue (lines 29-35). -/
structure EditForm where
  email : String
  firstName : String
  lastName : String
  isStaff : Bool
  isActive : Bool
deriving Repr, DecidableEq

/-- TypeScript `UpdateUserInput` (frontend/src/types/user.ts lines 48-56):
the type admits an `isSuperuser` field. -/
structure UpdateUserInput where
  userId : String
  email : Option String
  firstName : Option String
  lastName : Option String
  isStaff : Option Bool
  isSuperuser : Option Bool
  isActive : Option Bool
deriving Repr, DecidableEq

/-- The `UpdateUserInput` literal built by `saveUser` of UserManagementView.vue
(lines 63-70): only userId, email, firstName, lastName, isStaff, isActive are
set; no `isSuperuser` property appears in the literal. -/
def saveUserInput (userId : String) (f : EditForm) : UpdateUserInput where
  userId := userId
  email := some f.email
  firstName := some f.firstName
  lastName := some f.lastName
  isStaff := some f.isStaff
  isSuperuser := none
  isActive := some f.isActive

end UserManagement

namespace Backend

/-- The `all_users` resolver as written in the backend async/sync guideline
document (the resolver's code in the repository; backend/users/schema.py is
not in the tree):
`if not (user.is_authenticated and user.is_staff): return []` then
`User.objects.filter(is_superuser=False)`. The caller identity is the request
user: `none` is an unauthenticated (anonymous) request. -/
def all_users (caller : Option ServerUser) (db : List ServerUser) : List ServerUser :=
  match caller with
  | none => []
  | some u =>
      if u.isStaff then db.filter (fun w => !w.isSuperuser) else []

/-- Modelled from the spec: the backend logout mutation (users/schema.py is not
in the source tree). Destroys the current session; idempotent — calling it
with no active session still returns `success=true`. -/
def serverLogout (session : Option ServerUser) : Option ServerUser × LogoutPayload :=
  let _ := session
  (none, { success := true, message := "Logged out" })

/-- Modelled from the spec: the backend `me` query (users/schema.py is not in
the source tree). Resolves the session to the current user snapshot, shaped by
the ME_QUERY selection set, or null/absent if unauthenticated. -/
def serverMe (session : Option ServerUser) : Option ClientUser :=
  session.map (projectUser GraphQL.meUserSelection)

/-- Modelled from the spec: the user record created by the backend register
mutation (users/schema.py is not in the source tree) on a successful call:
field values are taken from the input; omitted optional fields default
(names empty, isStaff/isSuperuser false, isActive true); `newId` and `stamp`
stand for the store-assigned id and timestamps. -/
def serverRegister (newId stamp : String) (input : CreateUserForm.RegisterInput) :
    ServerUser where
  id := newId
  username := input.username
  email := input.email
  firstName := input.firstName.getD ""
  lastName := input.lastName.getD ""
  isActive := input.isActive.getD true
  isStaff := input.isStaff.getD false
  isSuperuser := input.isSuperuser.getD false
  dateJoined := stamp
  createdAt := stamp
  updatedAt := stamp

end Backend

namespace System

/-- Combined client/server state for the logout–me scenarios: the server-side
session bound to this client, and the client auth store. -/
structure SysState where
  session : Option ServerUser
  store : AuthStore.AuthState
deriving Repr, DecidableEq

/-- One round trip of the logout action: the backend logout mutation answers
and the store's `logout` action consumes its payload. -/
def sysLogout (s : SysState) : SysState × LogoutPayload :=
  let (sess, p) := Backend.serverLogout s.session
  let (st, p1) := AuthStore.logout s.store (.result none (some p))
  (⟨sess, st⟩, p1)

/-- One round trip of `me()`: the backend resolves the session and the store's
`fetchCurrentUser` consumes the result (a null/absent `me` is a no-error
result with no data). -/
def sysMe (s : SysState) : SysState :=
  let t : Transport ClientUser :=
    match Backend.serverMe s.session with
    | some u => .result none (some u)
    | none => .result none none
  ⟨s.session, AuthStore.fetchCurrentUser s.store t⟩

/-- Iterate the logout round trip `n` times. -/
def iterLogout : Nat → SysState → SysState
  | 0, s => s
  | n + 1, s => iterLogout n (sysLogout s).1

end System

/-- Concrete superuser record (a server-side account with isSuperuser=true). -/
def sampleAdmin : ServerUser :=
  ⟨"1", "root", "root@example.com", "Root", "Admin", true, true, true,
   "2024-01-01", "2024-01-01", "2024-01-01"⟩

/-- Concrete staff (non-superuser) record. -/
def sampleStaff : ServerUser :=
  ⟨"2", "bob", "bob@example.com", "Bob", "Staff", true, true, false,
   "2024-01-02", "2024-01-02", "2024-01-02"⟩

/-- Concrete normal (non-staff) record. -/
def sampleNormal : ServerUser :=
  ⟨"3", "carol", "carol@example.com", "Carol", "User", true, false, false,
   "2024-01-03", "2024-01-03", "2024-01-03"⟩

/-- Concrete user table. -/
def sampleDb : List ServerUser := [sampleAdmin, sampleStaff, sampleNormal]

/-- Successful register payload carrying the created user's snapshot. -/
def sampleRegisterPayload : UserPayload :=
  ⟨true, "User created successfully",
   some (projectUser GraphQL.registerUserSelection sampleStaff)⟩

/-- Successful login payload carrying the logged-in user's snapshot. -/
def sampleLoginPayload : UserPayload :=
  ⟨true, "Login successful",
   some (projectUser GraphQL.loginUserSelection sampleStaff)⟩

/-- Meta of the /dashboard route: requiresAuth only (router/index.ts line 21). -/
def dashboardMeta : Router.RouteMeta := ⟨true, false, false⟩

/-- RegisterInput produced by submitting the create-user form as `staff` with
username alice, email alice@x.com, password password1, empty names, active. -/
def aliceStaffInput : CreateUserForm.RegisterInput :=
  CreateUserForm.onSubmitInput .staff
    ⟨"alice", "alice@x.com", "password1", "", "", true⟩

/-- Combined state with an active superuser session and its cached snapshot. -/
def sampleSession : System.SysState :=
  ⟨some sampleAdmin, ⟨some (projectUser GraphQL.meUserSelection sampleAdmin), false⟩⟩

/-- Store state whose snapshot has been resolved to a logged-in staff user. -/
def resolvedState : AuthStore.AuthState :=
  ⟨some (projectUser GraphQL.meUserSelection sampleStaff), false⟩

/-- C1: evaluating the store at a superuser account fetched through the Me
operation (and likewise Login): the snapshot is cached (isAuthenticated holds)
but isAdmin evaluates to false although the server account's isSuperuser flag
is true, because no selection set requests isSuperuser, so the snapshot's
isSuperuser field is absent. -/
theorem c1_isAdmin_not_mirroring_server_flag :
    sampleAdmin.isSuperuser = true ∧
    (let sMe := AuthStore.fetchCurrentUser ⟨none, false⟩
        (.result none (some (projectUser GraphQL.meUserSelection sampleAdmin)))
     AuthStore.isAuthenticated sMe = true ∧ AuthStore.isAdmin sMe = false) ∧
    (let sLogin := (AuthStore.login ⟨none, false⟩
        (.result none (some ⟨true, "Login successful",
          some (projectUser GraphQL.loginUserSelection sampleAdmin)⟩))).1
     AuthStore.isAuthenticated sLogin = true ∧ AuthStore.isAdmin sLogin = false) := by
  decide

/-- C2 counterexample: a register call that resolves with success=true and a
returned user leaves the cached snapshot unchanged (still none) — the store's
register action never writes currentUser. -/
theorem c2_register_leaves_snapshot :
    sampleRegisterPayload.success = true ∧
    sampleRegisterPayload.user.isSome = true ∧
    (AuthStore.register ⟨none, false⟩
      (.result none (some sampleRegisterPayload))).1.currentUser = none := by
  decide

/-- C2 (amended): a successful login with a returned user replaces the
snapshot; register leaves the snapshot unchanged on every outcome; a
successful logout clears it; a failed or empty me() fetch clears it. -/
theorem c2_snapshot_updates (s : AuthStore.AuthState) :
    (∀ p : UserPayload, p.success = true → p.user.isSome = true →
      (AuthStore.login s (.result none (some p))).1.currentUser = p.user) ∧
    (∀ t : Transport UserPayload,
      (AuthStore.register s t).1.currentUser = s.currentUser) ∧
    (∀ p : LogoutPayload, p.success = true →
      (AuthStore.logout s (.result none (some p))).1.currentUser = none) ∧
    (∀ t : Transport ClientUser, (∀ u, t ≠ .result none (some u)) →
      (AuthStore.fetchCurrentUser s t).currentUser = none) := by
  refine ⟨?_, ?_, ?_, ?_⟩
  · intro p hs hu
    simp [AuthStore.login, AuthStore.loginTry, hs, hu]
  · intro t
    cases t with
    | thrown e => simp [AuthStore.register, AuthStore.registerTry]
    | result err d =>
        cases err with
        | some m => simp [AuthStore.register, AuthStore.registerTry]
        | none =>
            cases d with
            | some p => simp [AuthStore.register, AuthStore.registerTry]
            | none => simp [AuthStore.register, AuthStore.registerTry]
  · intro p hs
    simp [AuthStore.logout, AuthStore.logoutTry, hs]
  · intro t ht
    cases t with
    | thrown e => simp [AuthStore.fetchCurrentUser]
    | result err d =>
        cases err with
        | some m => simp [AuthStore.fetchCurrentUser]
        | none =>
            cases d with
            | some u => exact absurd rfl (ht u)
            | none => simp [AuthStore.fetchCurrentUser]

/-- C2 witness: the amended statement applied at the empty store, a successful
login payload, a successful logout payload, and a thrown me() fetch. -/
theorem c2_snapshot_updates_witness :
    (AuthStore.login ⟨none, false⟩
      (.result none (some sampleLoginPayload))).1.currentUser = sampleLoginPayload.user ∧
    (AuthStore.logout ⟨none, false⟩
      (.result none (some ⟨true, "Logged out"⟩))).1.currentUser = none ∧
    (AuthStore.fetchCurrentUser ⟨none, false⟩ (.thrown .other)).currentUser = none :=
  ⟨(c2_snapshot_updates ⟨none, false⟩).1 sampleLoginPayload (by decide) (by decide),
   (c2_snapshot_updates ⟨none, false⟩).2.2.1 ⟨true, "Logged out"⟩ rfl,
   (c2_snapshot_updates ⟨none, false⟩).2.2.2 (.thrown .other) (fun _ h => by cases h)⟩

/-- C3: the client's own User interface declares isSuperuser, yet every user
selection set in auth.graphql.ts equals the interface's field list with
isSuperuser removed; no selection set ever requests password. -/
theorem c3_selection_sets_omit_isSuperuser :
    userInterfaceFields.contains "isSuperuser" = true ∧
    GraphQL.loginUserSelection = userInterfaceFields.erase "isSuperuser" ∧
    GraphQL.registerUserSelection = userInterfaceFields.erase "isSuperuser" ∧
    GraphQL.meUserSelection = userInterfaceFields.erase "isSuperuser" ∧
    GraphQL.allUsersSelection = userInterfaceFields.erase "isSuperuser" ∧
    GraphQL.updateUserSelection = userInterfaceFields.erase "isSuperuser" ∧
    GraphQL.loginUserSelection.contains "password" = false ∧
    GraphQL.registerUserSelection.contains "password" = false ∧
    GraphQL.meUserSelection.contains "password" = false ∧
    GraphQL.allUsersSelection.contains "password" = false ∧
    GraphQL.updateUserSelection.contains "password" = false := by
  decide

/-- C4: on every failure outcome (GraphQL error result or thrown exception),
login, register, logout and updateUser return a structured success=false
payload, fetchAllUsers returns the empty list, and fetchCurrentUser clears the
snapshot — none of them propagates the exception. -/
theorem c4_failures_return_structured_payloads (s : AuthStore.AuthState) :
    (∀ t : Transport UserPayload, t.fails = true →
      (AuthStore.login s t).2.success = false) ∧
    (∀ t : Transport UserPayload, t.fails = true →
      (AuthStore.register s t).2.success = false) ∧
    (∀ t : Transport LogoutPayload, t.fails = true →
      (AuthStore.logout s t).2.success = false) ∧
    (∀ t : Transport UserPayload, t.fails = true →
      (AuthStore.updateUser s t).2.success = false) ∧
    (∀ t : Transport (List ClientUser), t.fails = true →
      AuthStore.fetchAllUsers t = []) ∧
    (∀ t : Transport ClientUser, t.fails = true →
      (AuthStore.fetchCurrentUser s t).currentUser = none) := by
  refine ⟨?_, ?_, ?_, ?_, ?_, ?_⟩ <;> intro t ht <;>
    cases t with
    | thrown e =>
        simp [AuthStore.login, AuthStore.loginTry, AuthStore.register,
          AuthStore.registerTry, AuthStore.logout, AuthStore.logoutTry,
          AuthStore.updateUser, AuthStore.updateUserTry,
          AuthStore.fetchAllUsers, AuthStore.fetchCurrentUser]
    | result err d =>
        cases err with
        | some m =>
            simp [AuthStore.login, AuthStore.loginTry, AuthStore.register,
              AuthStore.registerTry, AuthStore.logout, AuthStore.logoutTry,
              AuthStore.updateUser, AuthStore.updateUserTry,
              AuthStore.fetchAllUsers, AuthStore.fetchCurrentUser]
        | none => simp [Transport.fails] at ht

/-- C4 witness: a thrown login, an error-result register, a thrown logout, an
error-result updateUser, a thrown fetchAllUsers and an error-result
fetchCurrentUser all produce the structured fallback results. -/
theorem c4_failures_witness :
    (AuthStore.login ⟨none, false⟩ (.thrown .other)).2.success = false ∧
    (AuthStore.register ⟨none, false⟩
      (.result (some "Forbidden") none)).2.success = false ∧
    (AuthStore.logout ⟨none, false⟩ (.thrown (.errObj "network error"))).2.success = false ∧
    (AuthStore.updateUser ⟨none, false⟩
      (.result (some "Forbidden") none)).2.success = false ∧
    AuthStore.fetchAllUsers (.thrown .other) = [] ∧
    (AuthStore.fetchCurrentUser ⟨none, false⟩
      (.result (some "Unauthenticated") none)).currentUser = none :=
  ⟨(c4_failures_return_structured_payloads ⟨none, false⟩).1 (.thrown .other) rfl,
   (c4_failures_return_structured_payloads ⟨none, false⟩).2.1
     (.result (some "Forbidden") none) rfl,
   (c4_failures_return_structured_payloads ⟨none, false⟩).2.2.1
     (.thrown (.errObj "network error")) rfl,
   (c4_failures_return_structured_payloads ⟨none, false⟩).2.2.2.1
     (.result (some "Forbidden") none) rfl,
   (c4_failures_return_structured_payloads ⟨none, false⟩).2.2.2.2.1
     (.thrown .other) rfl,
   (c4_failures_return_structured_payloads ⟨none, false⟩).2.2.2.2.2
     (.result (some "Unauthenticated") none) rfl⟩

/-- Helper: one logout round trip always ends with no session, a cleared
snapshot, isLoading=false, and a success=true payload, from any state. -/
theorem sysLogout_eq (s : System.SysState) :
    System.sysLogout s = (⟨none, ⟨none, false⟩⟩, ⟨true, "Logged out"⟩) := by
  simp [System.sysLogout, Backend.serverLogout, AuthStore.logout, AuthStore.logoutTry]

/-- Helper: the cleared state is a fixed point of the logout round trip. -/
theorem iterLogout_cleared (n : Nat) :
    System.iterLogout n ⟨none, ⟨none, false⟩⟩ = ⟨none, ⟨none, false⟩⟩ := by
  induction n with
  | zero => rfl
  | succ m ih => simp [System.iterLogout, sysLogout_eq, ih]

/-- C5: after one or more logout round trips from any combined state, the
snapshot is null and the client unauthenticated, every further logout still
returns success=true, and a me() round trip afterwards reports
unauthenticated. -/
theorem c5_logout_idempotent (s : System.SysState) (n : Nat) (h : 0 < n) :
    (System.iterLogout n s).store.currentUser = none ∧
    AuthStore.isAuthenticated (System.iterLogout n s).store = false ∧
    (∀ w : System.SysState, (System.sysLogout w).2.success = true) ∧
    (System.sysMe (System.iterLogout n s)).store.currentUser = none ∧
    AuthStore.isAuthenticated (System.sysMe (System.iterLogout n s)).store = false := by
  obtain ⟨m, rfl⟩ : ∃ m, n = m + 1 := ⟨n - 1, (Nat.succ_pred_eq_of_pos h).symm⟩
  have key : System.iterLogout (m + 1) s = ⟨none, ⟨none, false⟩⟩ := by
    simp [System.iterLogout, sysLogout_eq, iterLogout_cleared]
  rw [key]
  refine ⟨rfl, rfl, ?_, rfl, rfl⟩
  intro w
  rw [sysLogout_eq]

/-- C5 witness: three logout round trips from a live superuser session leave
the client logged out, a fourth logout still succeeds, and me() reports
unauthenticated. -/
theorem c5_logout_idempotent_witness :
    (System.iterLogout 3 sampleSession).store.currentUser = none ∧
    AuthStore.isAuthenticated (System.iterLogout 3 sampleSession).store = false ∧
    (∀ w : System.SysState, (System.sysLogout w).2.success = true) ∧
    (System.sysMe (System.iterLogout 3 sampleSession)).store.currentUser = none ∧
    AuthStore.isAuthenticated (System.sysMe (System.iterLogout 3 sampleSession)).store = false :=
  c5_logout_idempotent sampleSession 3 (by decide)

/-- C6 counterexample: from the initial Unknown state, a first navigation on
which me() resolves unauthenticated issues a me() request, and the second
navigation issues another one — an additional me() request after the first
resolution. -/
theorem c6_second_navigation_reissues_me :
    (Router.beforeEach ⟨none, false⟩ (.result none none) dashboardMeta).2.1 = true ∧
    (Router.beforeEach
      (Router.beforeEach ⟨none, false⟩ (.result none none) dashboardMeta).1
      (.result none none) dashboardMeta).2.1 = true := by
  decide

/-- C6 (amended): the guard issues a me() request exactly when the snapshot is
null and no load is in flight; when it fetches, the route decision is taken on
the refreshed state; when a snapshot is cached, no request is issued and the
store is left unchanged — so only a resolution that produced a user suppresses
further me() requests. -/
theorem c6_guard_fetch_policy (s : AuthStore.AuthState) (t : Transport ClientUser)
    (meta : Router.RouteMeta) :
    ((Router.beforeEach s t meta).2.1 = (s.currentUser.isNone && !s.isLoading)) ∧
    ((Router.beforeEach s t meta).2.1 = true →
      (Router.beforeEach s t meta).1 = AuthStore.fetchCurrentUser s t ∧
      (Router.beforeEach s t meta).2.2 =
        Router.guardDecision meta (AuthStore.fetchCurrentUser s t)) ∧
    (∀ u, s.currentUser = some u →
      (Router.beforeEach s t meta).2.1 = false ∧
      (Router.beforeEach s t meta).1 = s) := by
  obtain ⟨cu, il⟩ := s
  cases cu <;> cases il <;>
    simp [Router.beforeEach, Router.guardFetches]

/-- C6 witness: with a resolved staff snapshot cached, a navigation issues no
me() request and leaves the store unchanged. -/
theorem c6_guard_fetch_policy_witness :
    (Router.beforeEach resolvedState (.result none none) dashboardMeta).2.1 = false ∧
    (Router.beforeEach resolvedState (.result none none) dashboardMeta).1 = resolvedState :=
  (c6_guard_fetch_policy resolvedState (.result none none) dashboardMeta).2.2
    (projectUser GraphQL.meUserSelection sampleStaff) rfl

/-- C7 counterexample: submitting the create-user form as staff for alice
produces the intended input flags, but the snapshot returned by the Register
operation does not carry isSuperuser=false: its isSuperuser field is absent,
because the Register selection set does not request it. -/
theorem c7_register_snapshot_without_isSuperuser :
    aliceStaffInput.isStaff = some true ∧
    aliceStaffInput.isSuperuser = some false ∧
    (projectUser GraphQL.registerUserSelection
      (Backend.serverRegister "7" "2024-02-01" aliceStaffInput)).isStaff = some true ∧
    (projectUser GraphQL.registerUserSelection
      (Backend.serverRegister "7" "2024-02-01" aliceStaffInput)).isSuperuser ≠ some false := by
  decide

/-- C7 (amended): the form maps admin to isStaff=true,isSuperuser=true, staff
to isStaff=true,isSuperuser=false and normal to isStaff=false,isSuperuser=false
in the RegisterInput; on success the created staff user has isStaff=true and
isSuperuser=false, and the snapshot returned to the client carries
isStaff=true while omitting the isSuperuser field. -/
theorem c7_form_role_mapping (v : CreateUserForm.FormValues) (newId stamp : String) :
    ((CreateUserForm.onSubmitInput .admin v).isStaff = some true ∧
     (CreateUserForm.onSubmitInput .admin v).isSuperuser = some true) ∧
    ((CreateUserForm.onSubmitInput .staff v).isStaff = some true ∧
     (CreateUserForm.onSubmitInput .staff v).isSuperuser = some false) ∧
    ((CreateUserForm.onSubmitInput .normal v).isStaff = some false ∧
     (CreateUserForm.onSubmitInput .normal v).isSuperuser = some false) ∧
    ((Backend.serverRegister newId stamp (CreateUserForm.onSubmitInput .staff v)).isStaff = true ∧
     (Backend.serverRegister newId stamp (CreateUserForm.onSubmitInput .staff v)).isSuperuser = false) ∧
    ((projectUser GraphQL.registerUserSelection
        (Backend.serverRegister newId stamp (CreateUserForm.onSubmitInput .staff v))).isStaff = some true ∧
     (projectUser GraphQL.registerUserSelection
        (Backend.serverRegister newId stamp (CreateUserForm.onSubmitInput .staff v))).isSuperuser = none) :=
  ⟨⟨rfl, rfl⟩, ⟨rfl, rfl⟩, ⟨rfl, rfl⟩, ⟨rfl, rfl⟩, ⟨rfl, rfl⟩⟩

/-- C8: for every edit-dialog form and target, the UpdateUserInput built by
saveUser sets exactly userId, email, firstName, lastName, isStaff and
isActive, and leaves isSuperuser unset although the type admits it — the
update path can never promote a target to superuser. -/
theorem c8_update_never_sets_isSuperuser (userId : String) (f : UserManagement.EditForm) :
    (UserManagement.saveUserInput userId f).isSuperuser = none ∧
    (UserManagement.saveUserInput userId f).userId = userId ∧
    (UserManagement.saveUserInput userId f).email = some f.email ∧
    (UserManagement.saveUserInput userId f).firstName = some f.firstName ∧
    (UserManagement.saveUserInput userId f).lastName = some f.lastName ∧
    (UserManagement.saveUserInput userId f).isStaff = some f.isStaff ∧
    (UserManagement.saveUserInput userId f).isActive = some f.isActive :=
  ⟨rfl, rfl, rfl, rfl, rfl, rfl, rfl⟩

/-- C9: all_users filters superuser accounts out of its result for every
caller, and returns the empty result for every non-staff or unauthenticated
caller. -/
theorem c9_all_users_policy (caller : Option ServerUser) (db : List ServerUser) :
    (∀ u ∈ Backend.all_users caller db, u.isSuperuser = false) ∧
    (∀ w, caller = some w → w.isStaff = false → Backend.all_users caller db = []) ∧
    (caller = none → Backend.all_users caller db = []) := by
  refine ⟨?_, ?_, ?_⟩
  · intro u hu
    cases caller with
    | none => simp [Backend.all_users] at hu
    | some w =>
        by_cases hw : w.isStaff
        · simp [Backend.all_users, hw, List.mem_filter] at hu
          exact hu.2
        · simp [Backend.all_users, hw] at hu
  · intro w hw hstaff
    subst hw
    simp [Backend.all_users, hstaff]
  · intro hc
    subst hc
    rfl

/-- C9 witness: in the sample table, the record a staff caller receives is not
a superuser, a normal (non-staff) caller receives the empty list, and so does
an anonymous caller. -/
theorem c9_all_users_policy_witness :
    sampleNormal.isSuperuser = false ∧
    Backend.all_users (some sampleNormal) sampleDb = [] ∧
    Backend.all_users none sampleDb = [] :=
  ⟨(c9_all_users_policy (some sampleStaff) sampleDb).1 sampleNormal (by decide),
   (c9_all_users_policy (some sampleNormal) sampleDb).2.1 sampleNormal rfl (by decide),
   (c9_all_users_policy none sampleDb).2.2 rfl⟩

/-- C10: every completion path of login, register, logout and updateUser —
success, GraphQL error result, absent data, or thrown exception — returns with
isLoading=false. -/
theorem c10_isLoading_restored (s : AuthStore.AuthState) :
    (∀ t : Transport UserPayload, (AuthStore.login s t).1.isLoading = false) ∧
    (∀ t : Transport UserPayload, (AuthStore.register s t).1.isLoading = false) ∧
    (∀ t : Transport LogoutPayload, (AuthStore.logout s t).1.isLoading = false) ∧
    (∀ t : Transport UserPayload, (AuthStore.updateUser s t).1.isLoading = false) := by
  refine ⟨?_, ?_, ?_, ?_⟩ <;> intro t <;>
    cases t with
    | thrown e =>
        simp [AuthStore.login, AuthStore.loginTry, AuthStore.register,
          AuthStore.registerTry, AuthStore.logout, AuthStore.logoutTry,
          AuthStore.updateUser, AuthStore.updateUserTry]
    | result err d =>
        cases err <;> cases d <;>
          simp [AuthStore.login, AuthStore.loginTry, AuthStore.register,
            AuthStore.registerTry, AuthStore.logout, AuthStore.logoutTry,
            AuthStore.updateUser, AuthStore.updateUserTry]
